import Mathlib

/-!
Shallow embedding of the bindgen CLI front end (src/main.rs): the `--link`
mini-parser inside `args_to_opts`, the output-sink selector `get_output`,
the argument-to-configuration compiler `args_to_opts`, and the
dispatch/report driver `main`.  Strings are modelled as their character
lists where universal statements about splitting are needed; `String`
fields delegate to the `List Char` versions through `String.data`.
-/

namespace BindgenCli

/-- Link kinds, mirroring the `bindgen::LinkType` enum used in src/main.rs
(`Static`, `Dynamic`, `Framework`). -/
inductive LinkType
  | Static
  | Dynamic
  | Framework
deriving DecidableEq

/-- Rust `str::split(sep)` for a one-character separator, over the
character list of the string.  Splitting the empty string yields one empty
segment; every occurrence of `sep` starts a new segment. -/
def splitChar (sep : Char) : List Char → List (List Char)
  | [] => [[]]
  | c :: rest =>
    if c = sep then [] :: splitChar sep rest
    else
      match splitChar sep rest with
      | [] => [[c]]
      | g :: gs => (c :: g) :: gs

theorem splitChar_ne_nil (sep : Char) (l : List Char) : splitChar sep l ≠ [] := by
  cases l with
  | nil => simp [splitChar]
  | cons c rest =>
    simp only [splitChar]
    split
    · simp
    · split <;> simp

theorem splitChar_of_not_mem (sep : Char) (l : List Char) (h : sep ∉ l) :
    splitChar sep l = [l] := by
  induction l with
  | nil => rfl
  | cons c rest ih =>
    have hc : ¬ c = sep := fun e => h (by simp [e])
    have hr : sep ∉ rest := fun m => h (List.mem_cons_of_mem _ m)
    simp [splitChar, hc, ih hr]

theorem splitChar_append (sep : Char) (a b : List Char) (h : sep ∉ a) :
    splitChar sep (a ++ sep :: b) = a :: splitChar sep b := by
  induction a with
  | nil => simp [splitChar]
  | cons c rest ih =>
    have hc : ¬ c = sep := fun e => h (by simp [e])
    have hr : sep ∉ rest := fun m => h (List.mem_cons_of_mem _ m)
    simp [splitChar, hc, ih hr]

/-- Outcome of the `--link` parsing block of `args_to_opts`
(src/main.rs lines 123-143): success yields the library name and the link
kind; `linkTypeUnknown` is the `println!("Link type unknown: {}", kind);
exit(1)` arm; `wrongLinkFormat` is the `println!("Wrong link format: {}",
link); exit(1)` arm. -/
inductive LinkOutcome
  | ok (lib : List Char) (kind : LinkType)
  | linkTypeUnknown (kind : List Char)
  | wrongLinkFormat
deriving DecidableEq

/-- The `--link` spec parser from `args_to_opts`: `link.split('=')`, match
on the first two items of the iterator.  `(Some lib, None)` is the
one-segment case, `(Some kind, Some lib)` the two-or-more-segment case
(further segments are never consumed), `(None, _)` the empty-split case. -/
def parseLink (link : List Char) : LinkOutcome :=
  match splitChar '=' link with
  | [] => .wrongLinkFormat
  | [lib] => .ok lib .Dynamic
  | kind :: lib :: _ =>
    if kind = "static".data then .ok lib .Static
    else if kind = "dynamic".data then .ok lib .Dynamic
    else if kind = "framework".data then .ok lib .Framework
    else .linkTypeUnknown kind

/-- Rust `str::split("::")` (leftmost, non-overlapping occurrences of the
two-character separator) over character lists, used by
`args.flag_ctypes_prefix.split("::")` in `args_to_opts`. -/
def splitColons : List Char → List (List Char)
  | [] => [[]]
  | ':' :: ':' :: rest => [] :: splitColons rest
  | c :: rest =>
    match splitColons rest with
    | [] => [[c]]
    | g :: gs => (c :: g) :: gs

/-- String-level wrapper for `split(',')` as used on the
`--macro-int-types` value. -/
def splitCommaStr (s : String) : List String :=
  (splitChar ',' s.data).map String.mk

/-- String-level wrapper for `split("::")` as used on the
`--ctypes-prefix` value. -/
def splitColonsStr (s : String) : List String :=
  (splitColons s.data).map String.mk

/-- The decoded command line, mirroring `struct Args` in src/main.rs.
Scalar flags with a docopt `[default: ...]` (such as `flag_ctypes_prefix`
and `flag_output`) arrive already filled with their default string when
the flag is absent; optional flags without a default are `Option`. -/
structure Args where
  arg_file : String
  arg_clang_args : List String
  flag_link : Option String
  flag_output : String
  flag_match : List String
  flag_builtins : Bool
  flag_emit_clang_ast : Bool
  flag_override_enum_type : String
  flag_ctypes_prefix : String
  flag_use_core : Bool
  flag_remove_prefix : Option String
  flag_no_derive_debug : Bool
  flag_no_rust_enums : Bool
  flag_dont_convert_floats : Bool
  flag_convert_macros : Bool
  flag_macro_int_types : Option String
  flag_allow_unknown_types : Bool
deriving DecidableEq

/-- The docopt default value of `--ctypes-prefix`, from the
`[default: std::os::raw]` annotation in the USAGE string of src/main.rs. -/
def ctypesPrefixDefault : String := "std::os::raw"

/-- Modelled from the spec: the `bindgen::Builder` configuration object
(GenerationConfig).  The Builder implementation lives in the bindgen
library, outside src/; following the spec, each setter called by
`args_to_opts` records its configured value in the corresponding field,
and fields whose setter is not called keep their documented default
(`derive_debug` and `rust_enums` default to the spec's absent-flag values
but are always overwritten by `args_to_opts`). -/
structure Builder where
  file : String
  emit_ast : Bool := false
  ctypes_prefix : List String := []
  use_core : Bool := false
  derive_debug : Bool := true
  rust_enums : Bool := true
  override_enum_ty : String := ""
  convert_macros : Bool := false
  clang_args : List String := []
  match_pats : List String := []
  remove_prefix : Option String := none
  macro_int_types : Option (List String) := none
  builtins : Bool := false
  dont_convert_floats : Bool := false
  allow_unknown_types : Bool := false
  link : Option (String × LinkType) := none
deriving DecidableEq

/-- The two `println! ... exit(1)` failure modes of `args_to_opts`. -/
inductive CliError
  | linkTypeUnknown (kind : String)
  | wrongLinkFormat (link : String)
deriving DecidableEq

/-- The diagnostic printed (to stdout) just before `exit(1)` for each
`CliError`, exactly as formatted in src/main.rs. -/
def cliErrorMessage : CliError → String
  | .linkTypeUnknown kind => "Link type unknown: " ++ kind
  | .wrongLinkFormat link => "Wrong link format: " ++ link

/-- The builder state after all unconditional and conditional setter calls
of `args_to_opts` except the `--link` block: defaults for fields whose
flag is absent, direct values otherwise, `!` on the two negative flags,
`split("::")` on the ctypes prefix and `split(',')` on the macro int
types. -/
def compileBase (args : Args) : Builder :=
  { file := args.arg_file
    emit_ast := args.flag_emit_clang_ast
    ctypes_prefix := splitColonsStr args.flag_ctypes_prefix
    use_core := args.flag_use_core
    derive_debug := !args.flag_no_derive_debug
    rust_enums := !args.flag_no_rust_enums
    override_enum_ty := args.flag_override_enum_type
    convert_macros := args.flag_convert_macros
    clang_args := args.arg_clang_args
    match_pats := args.flag_match
    remove_prefix := args.flag_remove_prefix
    macro_int_types := args.flag_macro_int_types.map splitCommaStr
    builtins := args.flag_builtins
    dont_convert_floats := args.flag_dont_convert_floats
    allow_unknown_types := args.flag_allow_unknown_types
    link := none }

/-- `args_to_opts` from src/main.rs: builds the configuration, then, when
`--link` was given, runs the link mini-parser; the two error arms print
their diagnostic and `exit(1)`, modelled as `Except.error`. -/
def args_to_opts (args : Args) : Except CliError Builder :=
  match args.flag_link with
  | none => .ok (compileBase args)
  | some link =>
    match parseLink link.data with
    | .ok lib kind => .ok { compileBase args with link := some (String.mk lib, kind) }
    | .linkTypeUnknown kind => .error (.linkTypeUnknown (String.mk kind))
    | .wrongLinkFormat => .error (.wrongLinkFormat link)

/-- The writable stream chosen by `get_output`: standard output, or a file
handle opened with `File::create` (create, truncating if it existed). -/
inductive OutputSink
  | stdout
  | file (path : String)
deriving DecidableEq

/-- `get_output` from src/main.rs.  `createOk` is the filesystem oracle
telling whether `File::create` succeeds at a path; when it fails, the
`.expect(&format!(...))` panic aborts the run with a message naming the
unwritable path, modelled as `Except.error` carrying that message. -/
def get_output (createOk : String → Bool) (o : String) : Except String OutputSink :=
  if o = "-" then .ok .stdout
  else if createOk o then .ok (.file o)
  else .error ("\"" ++ o ++ "\" unwritable")

/-- Observable events of one run of `main`, in program order. -/
inductive Event
  | fileCreated (path : String)
  | panicked (msg : String)
  | printed (msg : String)
  | loggedError (msg : String)
  | exited (code : Int)
deriving DecidableEq

/-- The events the output-sink resolution itself contributes to the run
trace: creating (or truncating) the named file, or nothing for stdout. -/
def sinkEvents : OutputSink → List Event
  | .stdout => []
  | .file p => [.fileCreated p]

/-- The driver `main` from src/main.rs as an event trace, after argument
decoding: `get_output` is called first (a failed creation panics the whole
run); then `args_to_opts` (whose errors print and `exit(1)`); then the
downstream `generate` (an opaque `Except Unit` collaborator; its `Err(())`
is a bare `exit(-1)`); then `bindings.write` (whose failure logs an error
and exits `-1`); falling off the end exits `0`. -/
def main_run {α : Type} (createOk : String → Bool) (gen : Builder → Except Unit α)
    (write : α → OutputSink → Except String Unit) (args : Args) : List Event :=
  match get_output createOk args.flag_output with
  | .error msg => [.panicked msg]
  | .ok out =>
    sinkEvents out ++
      match args_to_opts args with
      | .error e => [.printed (cliErrorMessage e), .exited 1]
      | .ok b =>
        match gen b with
        | .error _ => [.exited (-1)]
        | .ok bindings =>
          match write bindings out with
          | .ok _ => [.exited 0]
          | .error e =>
            [.loggedError ("Unable to write bindings to file. " ++ e), .exited (-1)]

/-- Sample decoded argument set used to instantiate universal theorems:
`bindgen foo.h` with every optional flag absent and every default in
place. -/
def sampleArgs : Args :=
  { arg_file := "foo.h"
    arg_clang_args := []
    flag_link := none
    flag_output := "-"
    flag_match := []
    flag_builtins := false
    flag_emit_clang_ast := false
    flag_override_enum_type := ""
    flag_ctypes_prefix := ctypesPrefixDefault
    flag_use_core := false
    flag_remove_prefix := none
    flag_no_derive_debug := false
    flag_no_rust_enums := false
    flag_dont_convert_floats := false
    flag_convert_macros := false
    flag_macro_int_types := none
    flag_allow_unknown_types := false }

/-- A downstream engine that always fails, for instantiating driver
theorems. -/
def genFail : Builder → Except Unit Unit := fun _ => .error ()

/-- A downstream engine that always succeeds with a unit artifact. -/
def genOk : Builder → Except Unit Unit := fun _ => .ok ()

/-- A write step that always succeeds. -/
def writeOk : Unit → OutputSink → Except String Unit := fun _ _ => .ok ()

theorem parseLink_two_segments (kind g : List Char) (gs : List (List Char))
    (rest : List Char) (hk : '=' ∉ kind) (hr : splitChar '=' rest = g :: gs) :
    parseLink (kind ++ '=' :: rest) =
      if kind = "static".data then .ok g .Static
      else if kind = "dynamic".data then .ok g .Dynamic
      else if kind = "framework".data then .ok g .Framework
      else .linkTypeUnknown kind := by
  unfold parseLink
  rw [splitChar_append _ _ _ hk, hr]

theorem args_to_opts_fields (args : Args) (b : Builder)
    (h : args_to_opts args = .ok b) :
    b.file = args.arg_file ∧
    b.emit_ast = args.flag_emit_clang_ast ∧
    b.ctypes_prefix = splitColonsStr args.flag_ctypes_prefix ∧
    b.use_core = args.flag_use_core ∧
    b.derive_debug = !args.flag_no_derive_debug ∧
    b.rust_enums = !args.flag_no_rust_enums ∧
    b.override_enum_ty = args.flag_override_enum_type ∧
    b.convert_macros = args.flag_convert_macros ∧
    b.clang_args = args.arg_clang_args ∧
    b.match_pats = args.flag_match ∧
    b.remove_prefix = args.flag_remove_prefix ∧
    b.macro_int_types = args.flag_macro_int_types.map splitCommaStr ∧
    b.builtins = args.flag_builtins ∧
    b.dont_convert_floats = args.flag_dont_convert_floats ∧
    b.allow_unknown_types = args.flag_allow_unknown_types := by
  cases hl : args.flag_link with
  | none =>
    simp only [args_to_opts, hl, Except.ok.injEq] at h
    subst h
    exact ⟨rfl, rfl, rfl, rfl, rfl, rfl, rfl, rfl, rfl, rfl, rfl, rfl, rfl, rfl, rfl⟩
  | some link =>
    cases hp : parseLink link.data with
    | ok lib kind =>
      simp only [args_to_opts, hl, hp, Except.ok.injEq] at h
      subst h
      exact ⟨rfl, rfl, rfl, rfl, rfl, rfl, rfl, rfl, rfl, rfl, rfl, rfl, rfl, rfl, rfl⟩
    | linkTypeUnknown kind =>
      simp only [args_to_opts, hl, hp] at h
      exact Except.noConfusion h
    | wrongLinkFormat =>
      simp only [args_to_opts, hl, hp] at h
      exact Except.noConfusion h

theorem args_to_opts_link_error (args : Args) (link : String)
    (hl : args.flag_link = some link) (kind : List Char)
    (hp : parseLink link.data = .linkTypeUnknown kind) :
    args_to_opts args = .error (.linkTypeUnknown (String.mk kind)) := by
  simp only [args_to_opts, hl, hp]

theorem main_run_cli_error {α : Type} (createOk : String → Bool)
    (gen : Builder → Except Unit α) (write : α → OutputSink → Except String Unit)
    (args : Args) (out : OutputSink) (e : CliError)
    (hout : get_output createOk args.flag_output = .ok out)
    (herr : args_to_opts args = .error e) :
    main_run createOk gen write args =
      sinkEvents out ++ [.printed (cliErrorMessage e), .exited 1] := by
  unfold main_run
  rw [hout, herr]

/-- C3: for every non-empty link spec string containing no `=` character,
link-spec parsing succeeds, yields kind `Dynamic`, and yields a library
name equal to the whole input string. -/
theorem c3_no_eq_is_dynamic (l : List Char) (hne : l ≠ []) (h : '=' ∉ l) :
    parseLink l = .ok l .Dynamic := by
  clear hne
  unfold parseLink
  rw [splitChar_of_not_mem _ _ h]

/-- C3 witness: `parse_link "foo"` yields the whole input as a dynamic
library. -/
theorem c3_witness : parseLink "foo".data = .ok "foo".data .Dynamic :=
  c3_no_eq_is_dynamic "foo".data (by decide) (by decide)

/-- C2: for a spec `kind=lib` with exactly one `=` (neither side contains
`=`), a left side of exactly `static`, `dynamic` or `framework` yields the
matching link kind with the right side as the library name; any other left
side makes the parser fail, `args_to_opts` abort with the
`linkTypeUnknown` error naming that token, and the printed diagnostic
identify it (the error arm then calls `exit(1)`, a nonzero status). -/
theorem c2_kind_eq_lib (kind lib : List Char) (hk : '=' ∉ kind) (hl : '=' ∉ lib) :
    (kind = "static".data → parseLink (kind ++ '=' :: lib) = .ok lib .Static) ∧
    (kind = "dynamic".data → parseLink (kind ++ '=' :: lib) = .ok lib .Dynamic) ∧
    (kind = "framework".data → parseLink (kind ++ '=' :: lib) = .ok lib .Framework) ∧
    (kind ≠ "static".data → kind ≠ "dynamic".data → kind ≠ "framework".data →
      parseLink (kind ++ '=' :: lib) = .linkTypeUnknown kind ∧
      (∀ args : Args, args.flag_link = some (String.mk (kind ++ '=' :: lib)) →
        args_to_opts args = .error (.linkTypeUnknown (String.mk kind))) ∧
      cliErrorMessage (.linkTypeUnknown (String.mk kind)) =
        "Link type unknown: " ++ String.mk kind) := by
  have hsplit := parseLink_two_segments kind lib [] lib hk (splitChar_of_not_mem _ _ hl)
  refine ⟨?_, ?_, ?_, ?_⟩
  · intro h
    rw [hsplit, if_pos h]
  · intro h
    have hs : ¬ kind = "static".data := by rw [h]; decide
    rw [hsplit, if_neg hs, if_pos h]
  · intro h
    have hs : ¬ kind = "static".data := by rw [h]; decide
    have hd : ¬ kind = "dynamic".data := by rw [h]; decide
    rw [hsplit, if_neg hs, if_neg hd, if_pos h]
  · intro h1 h2 h3
    refine ⟨?_, ?_, rfl⟩
    · rw [hsplit, if_neg h1, if_neg h2, if_neg h3]
    · intro args hargs
      apply args_to_opts_link_error args _ hargs
      show parseLink (kind ++ '=' :: lib) = _
      rw [hsplit, if_neg h1, if_neg h2, if_neg h3]

/-- C2 witness: `static=foo` parses as a static link of `foo`, and the
unrecognized kind `weird` makes the parser fail naming `weird`. -/
theorem c2_witness :
    parseLink ("static".data ++ '=' :: "foo".data) = .ok "foo".data .Static ∧
    parseLink ("weird".data ++ '=' :: "foo".data) = .linkTypeUnknown "weird".data := by
  constructor
  · exact (c2_kind_eq_lib "static".data "foo".data (by decide) (by decide)).1 rfl
  · exact ((c2_kind_eq_lib "weird".data "foo".data (by decide)
      (by decide)).2.2.2 (by decide) (by decide) (by decide)).1

/-- C1 counterexample: the empty link spec does NOT fail — `"".split('=')`
yields one empty segment, so the `(Some lib, None)` arm produces a
LinkDirective with kind `Dynamic` and empty library name. -/
theorem c1_counterexample : parseLink "".data = .ok "".data .Dynamic := by decide

/-- C1 amended: the empty link spec parses successfully to kind `Dynamic`
with empty library name; a spec containing `=` whose token before the
first `=` is none of `static`/`dynamic`/`framework` fails identifying that
token (so `a=b=c` fails naming `a`), while segments after the second are
ignored rather than rejected (`static=b=c` succeeds as a static link of
`b`). -/
theorem c1_amended (kind rest : List Char) (hk : '=' ∉ kind)
    (h1 : kind ≠ "static".data) (h2 : kind ≠ "dynamic".data)
    (h3 : kind ≠ "framework".data) :
    parseLink "".data = .ok "".data .Dynamic ∧
    parseLink (kind ++ '=' :: rest) = .linkTypeUnknown kind ∧
    parseLink "a=b=c".data = .linkTypeUnknown "a".data ∧
    parseLink "static=b=c".data = .ok "b".data .Static := by
  refine ⟨by decide, ?_, by decide, by decide⟩
  obtain ⟨g, gs, hr⟩ := List.exists_cons_of_ne_nil (splitChar_ne_nil '=' rest)
  rw [parseLink_two_segments kind g gs rest hk hr, if_neg h1, if_neg h2, if_neg h3]

/-- C1 witness: the amended statement at kind `weird` and remainder
`foo`. -/
theorem c1_witness :
    parseLink "".data = .ok "".data .Dynamic ∧
    parseLink ("weird".data ++ '=' :: "foo".data) = .linkTypeUnknown "weird".data ∧
    parseLink "a=b=c".data = .linkTypeUnknown "a".data ∧
    parseLink "static=b=c".data = .ok "b".data .Static :=
  c1_amended "weird".data "foo".data (by decide) (by decide) (by decide) (by decide)

/-- C9: the `Wrong link format` arm is unreachable: splitting any string
(the empty string included) on `=` yields at least one segment, so the
first `next()` is always `Some` and `parseLink` never returns
`wrongLinkFormat`. -/
theorem c9_wrong_format_unreachable (l : List Char) :
    splitChar '=' l ≠ [] ∧ parseLink l ≠ .wrongLinkFormat := by
  refine ⟨splitChar_ne_nil _ _, ?_⟩
  unfold parseLink
  cases hs : splitChar '=' l with
  | nil => exact absurd hs (splitChar_ne_nil _ _)
  | cons g gs =>
    cases gs with
    | nil => simp
    | cons g2 gs2 =>
      show (if g = "static".data then LinkOutcome.ok g2 .Static
          else if g = "dynamic".data then LinkOutcome.ok g2 .Dynamic
          else if g = "framework".data then LinkOutcome.ok g2 .Framework
          else LinkOutcome.linkTypeUnknown g) ≠ LinkOutcome.wrongLinkFormat
      by_cases h1 : g = "static".data <;> by_cases h2 : g = "dynamic".data <;>
        by_cases h3 : g = "framework".data <;> simp [h1, h2, h3]

/-- C9 witness: the unreachability statement at the concrete input
`a=b`. -/
theorem c9_witness :
    splitChar '=' "a=b".data ≠ [] ∧ parseLink "a=b".data ≠ .wrongLinkFormat :=
  c9_wrong_format_unreachable "a=b".data

/-- C5: the output token `-` selects standard output; any other token
attempts `File::create` (create, truncating if existing) at that path, and
a failed creation aborts the whole run with a panic whose message names
the unwritable path — the run trace is the panic alone, no fallback
sink. -/
theorem c5_output_sink (createOk : String → Bool) (o : String) :
    get_output createOk "-" = .ok .stdout ∧
    (o ≠ "-" → createOk o = true → get_output createOk o = .ok (.file o)) ∧
    (o ≠ "-" → createOk o = false →
      get_output createOk o = .error ("\"" ++ o ++ "\" unwritable") ∧
      ∀ (α : Type) (gen : Builder → Except Unit α)
        (write : α → OutputSink → Except String Unit) (args : Args),
          args.flag_output = o →
            main_run createOk gen write args =
              [.panicked ("\"" ++ o ++ "\" unwritable")]) := by
  refine ⟨by simp [get_output], ?_, ?_⟩
  · intro h1 h2
    simp [get_output, h1, h2]
  · intro h1 h2
    have he : get_output createOk o = .error ("\"" ++ o ++ "\" unwritable") := by
      simp [get_output, h1, h2]
    refine ⟨he, ?_⟩
    intro α gen write args hargs
    unfold main_run
    rw [hargs, he]

/-- C5 witness: stdout selection, and the panic trace for the unwritable
path `out.rs` under a filesystem where no creation succeeds. -/
theorem c5_witness :
    get_output (fun _ => false) "-" = .ok .stdout ∧
    get_output (fun _ => false) "out.rs" = .error ("\"" ++ "out.rs" ++ "\" unwritable") ∧
    main_run (fun _ => false) genFail writeOk { sampleArgs with flag_output := "out.rs" } =
      [.panicked ("\"" ++ "out.rs" ++ "\" unwritable")] := by
  have h := c5_output_sink (fun _ => false) "out.rs"
  have h3 := h.2.2 (by decide) rfl
  exact ⟨h.1, h3.1, h3.2 Unit genFail writeOk _ rfl⟩

/-- C7: the configured ctypes-prefix segments are the `--ctypes-prefix`
value split on the two-character separator `::`; the docopt default
`std::os::raw` splits to `["std","os","raw"]` and `a::b::c` splits to
`["a","b","c"]`. -/
theorem c7_ctypes_segments (args : Args) (b : Builder)
    (h : args_to_opts args = .ok b) :
    b.ctypes_prefix = splitColonsStr args.flag_ctypes_prefix ∧
    splitColonsStr ctypesPrefixDefault = ["std", "os", "raw"] ∧
    splitColonsStr "a::b::c" = ["a", "b", "c"] :=
  ⟨(args_to_opts_fields args b h).2.2.1, by decide, by decide⟩

/-- C7 witness: the default-argument run compiles the segments
`["std","os","raw"]`. -/
theorem c7_witness :
    Builder.ctypes_prefix (compileBase sampleArgs) = splitColonsStr ctypesPrefixDefault ∧
    splitColonsStr ctypesPrefixDefault = ["std", "os", "raw"] :=
  ⟨(c7_ctypes_segments sampleArgs (compileBase sampleArgs) rfl).1,
   (c7_ctypes_segments sampleArgs (compileBase sampleArgs) rfl).2.1⟩

/-- C8: the negative boolean flags invert (`--no-derive-debug` present
gives `derive_debug = false`, absent gives `true`; likewise
`--no-rust-enums` for `rust_enums`), and every other boolean flag maps
directly to its toggle. -/
theorem c8_boolean_flags (args : Args) (b : Builder)
    (h : args_to_opts args = .ok b) :
    b.derive_debug = !args.flag_no_derive_debug ∧
    b.rust_enums = !args.flag_no_rust_enums ∧
    b.emit_ast = args.flag_emit_clang_ast ∧
    b.use_core = args.flag_use_core ∧
    b.convert_macros = args.flag_convert_macros ∧
    b.builtins = args.flag_builtins ∧
    b.dont_convert_floats = args.flag_dont_convert_floats ∧
    b.allow_unknown_types = args.flag_allow_unknown_types := by
  obtain ⟨-, h2, -, h4, h5, h6, -, h8, -, -, -, -, h13, h14, h15⟩ :=
    args_to_opts_fields args b h
  exact ⟨h5, h6, h2, h4, h8, h13, h14, h15⟩

/-- C8 witness: with both negative flags present the compiled toggles are
`false`; with all flags absent they are `true`. -/
theorem c8_witness :
    (compileBase { sampleArgs with
      flag_no_derive_debug := true
      flag_no_rust_enums := true }).derive_debug = false ∧
    (compileBase { sampleArgs with
      flag_no_derive_debug := true
      flag_no_rust_enums := true }).rust_enums = false ∧
    (compileBase sampleArgs).derive_debug = true ∧
    (compileBase sampleArgs).rust_enums = true := by
  have h1 := c8_boolean_flags { sampleArgs with
      flag_no_derive_debug := true
      flag_no_rust_enums := true }
    (compileBase { sampleArgs with
      flag_no_derive_debug := true
      flag_no_rust_enums := true }) rfl
  have h2 := c8_boolean_flags sampleArgs (compileBase sampleArgs) rfl
  exact ⟨h1.1, h1.2.1, h2.1, h2.2.1⟩

/-- Modelled from the spec: the macro-integer type-name tokens the
downstream engine treats as eligible are the `--override-enum-type` names
listed in the USAGE text; the bindgen-library consumer of the token
sequence is not under src/. -/
def eligibleMacroIntTypeNames : List String :=
  ["uchar", "schar", "ushort", "sshort", "uint", "sint",
   "ulong", "slong", "ulonglong", "slonglong"]

/-- C6: `--macro-int-types` absent leaves the feature disabled (`none`);
present, its value is split on `,` into type-name tokens; present but
empty enables the feature (`some`, distinguished from `none`) with the
single empty token, none of which is an eligible type name. -/
theorem c6_macro_int_types (args : Args) (b : Builder)
    (h : args_to_opts args = .ok b) :
    (args.flag_macro_int_types = none → b.macro_int_types = none) ∧
    (∀ s, args.flag_macro_int_types = some s →
      b.macro_int_types = some (splitCommaStr s)) ∧
    (args.flag_macro_int_types = some "" →
      b.macro_int_types = some [""] ∧ b.macro_int_types ≠ none ∧
      (splitCommaStr "").filter (fun t => eligibleMacroIntTypeNames.contains t) = []) := by
  have hm := (args_to_opts_fields args b h).2.2.2.2.2.2.2.2.2.2.2.1
  refine ⟨?_, ?_, ?_⟩
  · intro hn
    rw [hm, hn]
    rfl
  · intro s hs
    rw [hm, hs]
    rfl
  · intro hs
    rw [hm, hs]
    refine ⟨by decide, by decide, by decide⟩

/-- C6 witness: present-but-empty gives `some [""]`, absent gives
`none`. -/
theorem c6_witness :
    (compileBase { sampleArgs with flag_macro_int_types := some "" }).macro_int_types =
      some [""] ∧
    (compileBase sampleArgs).macro_int_types = none := by
  have h1 := c6_macro_int_types { sampleArgs with flag_macro_int_types := some "" }
      (compileBase { sampleArgs with flag_macro_int_types := some "" }) rfl
  have h2 := c6_macro_int_types sampleArgs (compileBase sampleArgs) rfl
  exact ⟨(h1.2.2 rfl).1, h2.1 rfl⟩

/-- C4: when the downstream `generate()` returns `Err(())` the driver
exits `-1` with no printed or logged diagnostic from this layer; when
`generate()` returns `Ok` and the write succeeds, the run exits `0`. -/
theorem c4_dispatch (α : Type) (createOk : String → Bool)
    (gen : Builder → Except Unit α) (write : α → OutputSink → Except String Unit)
    (args : Args) (out : OutputSink) (b : Builder)
    (hout : get_output createOk args.flag_output = .ok out)
    (hok : args_to_opts args = .ok b) :
    (gen b = .error () →
      main_run createOk gen write args = sinkEvents out ++ [.exited (-1)] ∧
      (∀ m, Event.printed m ∉ main_run createOk gen write args) ∧
      (∀ m, Event.loggedError m ∉ main_run createOk gen write args)) ∧
    (∀ a, gen b = .ok a → write a out = .ok () →
      main_run createOk gen write args = sinkEvents out ++ [.exited 0]) := by
  constructor
  · intro hg
    have htrace : main_run createOk gen write args = sinkEvents out ++ [.exited (-1)] := by
      simp only [main_run, hout, hok, hg]
    refine ⟨htrace, ?_, ?_⟩
    · intro m
      rw [htrace]
      cases out <;> simp [sinkEvents]
    · intro m
      rw [htrace]
      cases out <;> simp [sinkEvents]
  · intro a hg hw
    simp only [main_run, hout, hok, hg, hw]

/-- C4 witness: with the default arguments and a stdout sink, a failing
engine yields the bare trace `[exited (-1)]` and a succeeding engine with
a succeeding write yields `[exited 0]`. -/
theorem c4_witness :
    main_run (fun _ => true) genFail writeOk sampleArgs = [Event.exited (-1)] ∧
    main_run (fun _ => true) genOk writeOk sampleArgs = [Event.exited 0] := by
  have h1 := c4_dispatch Unit (fun _ => true) genFail writeOk sampleArgs .stdout
      (compileBase sampleArgs) rfl rfl
  have h2 := c4_dispatch Unit (fun _ => true) genOk writeOk sampleArgs .stdout
      (compileBase sampleArgs) rfl rfl
  exact ⟨(h1.1 rfl).1, h2.2 () rfl rfl⟩

/-- C10: the output sink is resolved before the `--link` value is parsed:
on a run whose output token names a creatable file and whose link spec
parsing fails, the trace still starts with the file creation (so the
pre-existing file was truncated) before the error is printed and the
process exits 1. -/
theorem c10_output_before_link (α : Type) (createOk : String → Bool)
    (gen : Builder → Except Unit α) (write : α → OutputSink → Except String Unit)
    (args : Args) (e : CliError)
    (h1 : args.flag_output ≠ "-") (h2 : createOk args.flag_output = true)
    (h3 : args_to_opts args = .error e) :
    main_run createOk gen write args =
      Event.fileCreated args.flag_output ::
        [Event.printed (cliErrorMessage e), Event.exited 1] := by
  have hout : get_output createOk args.flag_output = .ok (.file args.flag_output) := by
    simp [get_output, h1, h2]
  have h := main_run_cli_error createOk gen write args (.file args.flag_output) e hout h3
  simpa [sinkEvents] using h

/-- C10 witness: the run `--output=out.rs --link=weird=foo` creates the
file first and only then aborts on the bad link spec. -/
theorem c10_witness :
    main_run (fun _ => true) genFail writeOk
        { sampleArgs with flag_output := "out.rs", flag_link := some "weird=foo" } =
      [Event.fileCreated "out.rs",
       Event.printed (cliErrorMessage (.linkTypeUnknown "weird")), Event.exited 1] :=
  c10_output_before_link Unit (fun _ => true) genFail writeOk
    { sampleArgs with flag_output := "out.rs", flag_link := some "weird=foo" }
    (.linkTypeUnknown "weird") (by decide) rfl rfl

end BindgenCli
